import Mathlib

set_option maxRecDepth 10000

/-!
Verification of the authentication/token subsystem of the repository
(PKCE generator, rate limiter, JWKS cache, token exchange client,
token validator, auth orchestrator), shallowly embedded in Lean 4.

Conventions used throughout:
* Python byte strings are `List Nat` (each entry a byte value);
* timestamps (`time.time()` / `datetime.utcnow()`) are modelled as
  integers (seconds); only comparisons and subtraction are used by the
  code, so the embedding preserves every branch condition;
* Python exceptions become explicit `Except` results;
* JSON dictionaries are modelled as structures whose fields are
  `Option`-valued (`none` = key absent), with a double `Option` where
  the code distinguishes an absent key from an explicit `null`;
* network I/O is modelled by passing the outcome of the HTTP call as
  an explicit argument, together with a counter of how many calls the
  embedded function performs.
-/

namespace AuthCore

/-! ## Base64 (URL-safe), as used by `base64.urlsafe_b64encode` -/

/-- The URL-safe base64 alphabet (`+`/`/` replaced by `-`/`_`). -/
def b64urlAlphabet : List Char :=
  "ABCDEFGHIJKLMNOPQRSTUVWXYZabcdefghijklmnopqrstuvwxyz0123456789-_".toList

/-- Character for a 6-bit group. -/
def b64char (n : Nat) : Char := b64urlAlphabet.getD n 'A'

/-- URL-safe base64 encoding of a byte list, with `=` padding, exactly as
`base64.urlsafe_b64encode` produces it. -/
def b64urlEncode : List Nat → List Char
  | b0 :: b1 :: b2 :: rest =>
      b64char (b0 / 4) :: b64char ((b0 % 4) * 16 + b1 / 16) ::
      b64char ((b1 % 16) * 4 + b2 / 64) :: b64char (b2 % 64) :: b64urlEncode rest
  | [b0, b1] =>
      [b64char (b0 / 4), b64char ((b0 % 4) * 16 + b1 / 16), b64char ((b1 % 16) * 4), '=']
  | [b0] =>
      [b64char (b0 / 4), b64char ((b0 % 4) * 16), '=', '=']
  | [] => []

/-- `str.replace("=", "")`: drop every `=` character. -/
def stripEquals (cs : List Char) : List Char := cs.filter (fun c => c ≠ '=')

/-- The PKCE verifier/challenge alphabet `[A-Za-z0-9\-._~]`. -/
def isPkceChar (c : Char) : Bool :=
  (('A' ≤ c && c ≤ 'Z') || ('a' ≤ c && c ≤ 'z') || ('0' ≤ c && c ≤ '9')
    || c = '-' || c = '.' || c = '_' || c = '~')

/-! ## SHA-256 (pure `Nat` arithmetic, words mod 2^32) -/

namespace SHA256

/-- Rotate a word right by `n` bits, keeping 32 bits. -/
def rotr (n x : Nat) : Nat := ((x >>> n) ||| (x <<< (32 - n))) % 2 ^ 32

/-- Bitwise complement of a 32-bit word. -/
def comp32 (x : Nat) : Nat := x ^^^ 0xFFFFFFFF

def bigSigma0 (x : Nat) : Nat := rotr 2 x ^^^ rotr 13 x ^^^ rotr 22 x

def bigSigma1 (x : Nat) : Nat := rotr 6 x ^^^ rotr 11 x ^^^ rotr 25 x

def smallSigma0 (x : Nat) : Nat := rotr 7 x ^^^ rotr 18 x ^^^ (x >>> 3)

def smallSigma1 (x : Nat) : Nat := rotr 17 x ^^^ rotr 19 x ^^^ (x >>> 10)

def ch (e f g : Nat) : Nat := (e &&& f) ^^^ (comp32 e &&& g)

def maj (a b c : Nat) : Nat := (a &&& b) ^^^ (a &&& c) ^^^ (b &&& c)

/-- The 64 round constants (FIPS 180-4, written in decimal). -/
def K : List Nat :=
  [1116352408, 1899447441, 3049323471, 3921009573, 961987163,
   1508970993, 2453635748, 2870763221, 3624381080, 310598401,
   607225278, 1426881987, 1925078388, 2162078206, 2614888103,
   3248222580, 3835390401, 4022224774, 264347078, 604807628,
   770255983, 1249150122, 1555081692, 1996064986, 2554220882,
   2821834349, 2952996808, 3210313671, 3336571891, 3584528711,
   113926993, 338241895, 666307205, 773529912, 1294757372,
   1396182291, 1695183700, 1986661051, 2177026350, 2456956037,
   2730485921, 2820302411, 3259730800, 3345764771, 3516065817,
   3600352804, 4094571909, 275423344, 430227734, 506948616,
   659060556, 883997877, 958139571, 1322822218, 1537002063,
   1747873779, 1955562222, 2024104815, 2227730452, 2361852424,
   2428436474, 2756734187, 3204031479, 3329325298]

/-- The initial hash value (FIPS 180-4, written in decimal). -/
def H0 : List Nat :=
  [1779033703, 3144134277, 1013904242, 2773480762,
   1359893119, 2600822924, 528734635, 1541459225]

/-- Merkle–Damgård padding: `0x80`, zeros to 56 mod 64, then the bit length
as 8 big-endian bytes. -/
def pad (msg : List Nat) : List Nat :=
  let bitLen := msg.length * 8
  let zeros := (119 - msg.length % 64) % 64
  msg ++ [0x80] ++ List.replicate zeros 0 ++
    [bitLen / 2 ^ 56 % 256, bitLen / 2 ^ 48 % 256, bitLen / 2 ^ 40 % 256,
     bitLen / 2 ^ 32 % 256, bitLen / 2 ^ 24 % 256, bitLen / 2 ^ 16 % 256,
     bitLen / 2 ^ 8 % 256, bitLen % 256]

/-- Split a byte list into 64-byte blocks.  The auxiliary fuel argument
(`bs.length` suffices, since every step consumes at least one byte) keeps the
recursion structural so that proofs can evaluate the function. -/
def chunks64Go : Nat → List Nat → List (List Nat)
  | 0, _ => []
  | _, [] => []
  | fuel + 1, b :: bs => (b :: bs).take 64 :: chunks64Go fuel ((b :: bs).drop 64)

/-- Split a byte list into 64-byte blocks. -/
def chunks64 (bs : List Nat) : List (List Nat) := chunks64Go bs.length bs

/-- Big-endian 32-bit words from bytes. -/
def bytesToWords : List Nat → List Nat
  | b0 :: b1 :: b2 :: b3 :: rest =>
      (((b0 * 256 + b1) * 256 + b2) * 256 + b3) :: bytesToWords rest
  | _ => []

/-- One newly scheduled word, appended at position `w.length`. -/
def nextWord (w : List Nat) : Nat :=
  (smallSigma1 (w.getD (w.length - 2) 0) + w.getD (w.length - 7) 0 +
   smallSigma0 (w.getD (w.length - 15) 0) + w.getD (w.length - 16) 0) % 2 ^ 32

/-- Extend the 16 message words to 64. -/
def buildW (w : List Nat) : Nat → List Nat
  | 0 => w
  | n + 1 => buildW (w ++ [nextWord w]) n

/-- The eight working variables of the compression loop. -/
structure Regs where
  a : Nat
  b : Nat
  c : Nat
  d : Nat
  e : Nat
  f : Nat
  g : Nat
  h : Nat

/-- One compression round. -/
def round (kt wt : Nat) (r : Regs) : Regs :=
  let t1 := (r.h + bigSigma1 r.e + ch r.e r.f r.g + kt + wt) % 2 ^ 32
  let t2 := (bigSigma0 r.a + maj r.a r.b r.c) % 2 ^ 32
  { a := (t1 + t2) % 2 ^ 32, b := r.a, c := r.b, d := r.c,
    e := (r.d + t1) % 2 ^ 32, f := r.e, g := r.f, h := r.g }

/-- Process one 64-byte block, updating the running hash (a list of 8 words). -/
def processBlock (H : List Nat) (block : List Nat) : List Nat :=
  let w := buildW (bytesToWords block) 48
  let init : Regs :=
    { a := H.getD 0 0, b := H.getD 1 0, c := H.getD 2 0, d := H.getD 3 0,
      e := H.getD 4 0, f := H.getD 5 0, g := H.getD 6 0, h := H.getD 7 0 }
  let r := (List.range 64).foldl (fun r t => round (K.getD t 0) (w.getD t 0) r) init
  [(H.getD 0 0 + r.a) % 2 ^ 32, (H.getD 1 0 + r.b) % 2 ^ 32,
   (H.getD 2 0 + r.c) % 2 ^ 32, (H.getD 3 0 + r.d) % 2 ^ 32,
   (H.getD 4 0 + r.e) % 2 ^ 32, (H.getD 5 0 + r.f) % 2 ^ 32,
   (H.getD 6 0 + r.g) % 2 ^ 32, (H.getD 7 0 + r.h) % 2 ^ 32]

/-- Big-endian bytes of a 32-bit word. -/
def wordBytes (w : Nat) : List Nat :=
  [w / 2 ^ 24 % 256, w / 2 ^ 16 % 256, w / 2 ^ 8 % 256, w % 256]

/-- `hashlib.sha256(msg).digest()`: the 32-byte SHA-256 digest. -/
def digest (msg : List Nat) : List Nat :=
  ((chunks64 (pad msg)).foldl processBlock H0).flatMap wordBytes

end SHA256

/-- UTF-8 encoding of one character (`str.encode("utf-8")`, per char). -/
def utf8Char (c : Char) : List Nat :=
  let n := c.toNat
  if n < 0x80 then [n]
  else if n < 0x800 then [0xC0 ||| (n >>> 6), 0x80 ||| (n &&& 0x3F)]
  else if n < 0x10000 then
    [0xE0 ||| (n >>> 12), 0x80 ||| ((n >>> 6) &&& 0x3F), 0x80 ||| (n &&& 0x3F)]
  else
    [0xF0 ||| (n >>> 18), 0x80 ||| ((n >>> 12) &&& 0x3F),
     0x80 ||| ((n >>> 6) &&& 0x3F), 0x80 ||| (n &&& 0x3F)]

/-- UTF-8 encoding of a string (`str.encode("utf-8")`). -/
def utf8Encode (s : String) : List Nat := s.data.flatMap utf8Char

/-! ## PKCE generator (`alphab_logto/utils/pkce.py`, class `PKCEUtils`) -/

namespace PKCEUtils

/-- `PKCEUtils.generate_code_verifier`, as a function of the 40 random bytes
produced by `os.urandom(40)`:
`base64.urlsafe_b64encode(os.urandom(40)).decode("utf-8").replace("=", "")`. -/
def generate_code_verifier (randomBytes : List Nat) : String :=
  ⟨stripEquals (b64urlEncode randomBytes)⟩

/-- `PKCEUtils.generate_code_challenge`:
`base64.urlsafe_b64encode(hashlib.sha256(v.encode("utf-8")).digest())
  .decode("utf-8").replace("=", "")`.
The source performs no input validation and has no failure path, so the
embedding is a total function. -/
def generate_code_challenge (code_verifier : String) : String :=
  ⟨stripEquals (b64urlEncode (SHA256.digest (utf8Encode code_verifier)))⟩

end PKCEUtils

end AuthCore

namespace AuthCore

/-! ## Generic facts about the base64url encoder -/

theorem b64urlAlphabet_length : b64urlAlphabet.length = 64 := by decide

theorem b64char_ne_equals (n : Nat) : b64char n ≠ '=' := by
  by_cases h : n < 64
  · exact (by decide : ∀ m, m < 64 → b64char m ≠ '=') n h
  · unfold b64char
    rw [List.getD_eq_default _ _ (by rw [b64urlAlphabet_length]; omega)]
    decide

theorem isPkceChar_b64char (n : Nat) : isPkceChar (b64char n) = true := by
  by_cases h : n < 64
  · exact (by decide : ∀ m, m < 64 → isPkceChar (b64char m) = true) n h
  · unfold b64char
    rw [List.getD_eq_default _ _ (by rw [b64urlAlphabet_length]; omega)]
    decide

/-- Stripping the `=` padding from an encoded byte list leaves
`4·(n/3)` characters plus `n%3 + 1` characters for a ragged tail. -/
theorem stripEquals_b64urlEncode_length (bs : List Nat) :
    (stripEquals (b64urlEncode bs)).length =
      bs.length / 3 * 4 + (if bs.length % 3 = 0 then 0 else bs.length % 3 + 1) := by
  induction bs using b64urlEncode.induct with
  | case1 b0 b1 b2 rest ih =>
      simp only [b64urlEncode, stripEquals] at ih ⊢
      rw [List.filter_cons_of_pos (by simp [b64char_ne_equals]),
        List.filter_cons_of_pos (by simp [b64char_ne_equals]),
        List.filter_cons_of_pos (by simp [b64char_ne_equals]),
        List.filter_cons_of_pos (by simp [b64char_ne_equals])]
      simp only [List.length_cons, ih]
      have h3 : (rest.length + 1 + 1 + 1) % 3 = rest.length % 3 := by omega
      have h4 : (rest.length + 1 + 1 + 1) / 3 = rest.length / 3 + 1 := by omega
      rw [h3, h4]
      split_ifs <;> omega
  | case2 b0 b1 =>
      simp [stripEquals, b64urlEncode, List.filter, b64char_ne_equals]
  | case3 b0 =>
      simp [stripEquals, b64urlEncode, List.filter, b64char_ne_equals]
  | case4 =>
      simp [stripEquals, b64urlEncode]

/-- Every character surviving the padding strip is a PKCE-alphabet character. -/
theorem mem_stripEquals_b64urlEncode {c : Char} (bs : List Nat)
    (hc : c ∈ stripEquals (b64urlEncode bs)) : isPkceChar c = true := by
  induction bs using b64urlEncode.induct with
  | case1 b0 b1 b2 rest ih =>
      simp only [b64urlEncode, stripEquals, List.mem_filter, List.mem_cons] at hc ih ⊢
      rcases hc with ⟨hmem, hne⟩
      rcases hmem with h | h | h | h | h
      · exact h ▸ isPkceChar_b64char _
      · exact h ▸ isPkceChar_b64char _
      · exact h ▸ isPkceChar_b64char _
      · exact h ▸ isPkceChar_b64char _
      · exact ih ⟨h, hne⟩
  | case2 b0 b1 =>
      simp only [b64urlEncode, stripEquals, List.mem_filter, List.mem_cons,
        List.not_mem_nil, or_false] at hc
      rcases hc with ⟨h | h | h | h, hne⟩
      · exact h ▸ isPkceChar_b64char _
      · exact h ▸ isPkceChar_b64char _
      · exact h ▸ isPkceChar_b64char _
      · simp [h] at hne
  | case3 b0 =>
      simp only [b64urlEncode, stripEquals, List.mem_filter, List.mem_cons,
        List.not_mem_nil, or_false] at hc
      rcases hc with ⟨h | h | h | h, hne⟩
      · exact h ▸ isPkceChar_b64char _
      · exact h ▸ isPkceChar_b64char _
      · simp [h] at hne
      · simp [h] at hne
  | case4 =>
      simp [b64urlEncode, stripEquals] at hc

theorem equals_not_mem_stripEquals (cs : List Char) : '=' ∉ stripEquals cs := by
  simp [stripEquals]

/-! ## Claim C9 and Claim C3 -/

/-- Claim C9: every string returned by `generate_code_verifier` (as a function of
the 40 bytes drawn from `os.urandom(40)`) has length between 43 and 128 (it is in
fact always 54 characters), uses only the PKCE alphabet `[A-Za-z0-9\-._~]`, and
contains no `=` padding character. -/
theorem C9_generate_code_verifier_valid (randomBytes : List Nat)
    (h : randomBytes.length = 40) :
    43 ≤ (PKCEUtils.generate_code_verifier randomBytes).length ∧
      (PKCEUtils.generate_code_verifier randomBytes).length ≤ 128 ∧
      (∀ c ∈ (PKCEUtils.generate_code_verifier randomBytes).data, isPkceChar c = true) ∧
      '=' ∉ (PKCEUtils.generate_code_verifier randomBytes).data := by
  have hd : (PKCEUtils.generate_code_verifier randomBytes).data
      = stripEquals (b64urlEncode randomBytes) := rfl
  have hlen : (PKCEUtils.generate_code_verifier randomBytes).length = 54 := by
    show (stripEquals (b64urlEncode randomBytes)).length = 54
    rw [stripEquals_b64urlEncode_length, h]
    decide
  refine ⟨by omega, by omega, ?_, ?_⟩
  · intro c hcmem
    exact mem_stripEquals_b64urlEncode randomBytes (hd ▸ hcmem)
  · rw [hd]
    exact equals_not_mem_stripEquals _

/-- Witness for C9: the concrete 40-byte input of all zeros. -/
theorem C9_witness :
    (List.replicate 40 (0 : Nat)).length = 40 ∧
      (43 ≤ (PKCEUtils.generate_code_verifier (List.replicate 40 (0 : Nat))).length ∧
        (PKCEUtils.generate_code_verifier (List.replicate 40 (0 : Nat))).length ≤ 128 ∧
        (∀ c ∈ (PKCEUtils.generate_code_verifier (List.replicate 40 (0 : Nat))).data,
            isPkceChar c = true) ∧
        '=' ∉ (PKCEUtils.generate_code_verifier (List.replicate 40 (0 : Nat))).data) :=
  ⟨by decide, C9_generate_code_verifier_valid (List.replicate 40 (0 : Nat)) (by decide)⟩

/-- Claim C3, the code evaluated at the failing input: the source of
`generate_code_challenge` performs no input validation and has no failure path,
so the empty verifier is accepted and yields the 43-character base64url-encoded
SHA-256 digest of the empty string.  This contradicts the claimed
`InvalidInputError` behaviour, and it contradicts the repository test
`test_empty_verifier_raises_error`, which asserts that this very call raises. -/
theorem C3_empty_verifier_accepted :
    PKCEUtils.generate_code_challenge "" = "47DEQpj8HBSa-_TImW-5JCeuQeRkm5NMpJWZG3hSuFU" := by
  decide

/-! ## Rate limiter (`alphab_logto/utils/rate_limiter.py`, class `RateLimiter`)

The mutable object is embedded as an explicit state; `time.time()` is passed
in as the `now` argument.  `defaultdict(list)` is embedded as a total map
from identifiers to timestamp lists whose initial value is `[]` everywhere. -/

namespace RateLimiter

/-- The state of a `RateLimiter` instance. -/
structure State where
  requests_per_minute : Nat
  requests : String → List Int

/-- `RateLimiter.__init__`. -/
def init (requests_per_minute : Nat) : State :=
  { requests_per_minute := requests_per_minute, requests := fun _ => [] }

/-- The list comprehension `[t for t in self.requests[identifier] if t > minute_ago]`
with `minute_ago = now - 60`. -/
def prune (now : Int) (ts : List Int) : List Int := ts.filter (fun t => t > now - 60)

/-- `RateLimiter.is_rate_limited`: prune, test the threshold, and record the
current timestamp when not limited.  Returns the Python return value together
with the post-call state. -/
def is_rate_limited (s : State) (identifier : String) (now : Int) : Bool × State :=
  let pruned := prune now (s.requests identifier)
  if s.requests_per_minute ≤ pruned.length then
    (true, { s with requests := fun i => if i = identifier then pruned else s.requests i })
  else
    (false,
      { s with requests := fun i => if i = identifier then pruned ++ [now] else s.requests i })

/-- `RateLimiter.get_remaining_requests`: prunes (writing the pruned list back
into `self.requests[identifier]`) and returns `max(0, limit - count)`. -/
def get_remaining_requests (s : State) (identifier : String) (now : Int) : Int × State :=
  let pruned := prune now (s.requests identifier)
  (max 0 ((s.requests_per_minute : Int) - pruned.length),
    { s with requests := fun i => if i = identifier then pruned else s.requests i })

/-- `RateLimiter.reset`. -/
def reset (s : State) (identifier : Option String) : State :=
  match identifier with
  | none => { s with requests := fun _ => [] }
  | some id_ => { s with requests := fun i => if i = id_ then [] else s.requests i }

end RateLimiter

/-! ## Claim C6 and Claim C7 -/

/-- Claim C6: with threshold 2, three successive calls to
`is_rate_limited "A"` within one second return `false`, `false`, `true`, and a
call for `"B"` interleaved between the second and third call still returns
`false` (windows are independent per identifier). -/
theorem C6_threshold_two (t1 t2 tb t3 : Int)
    (h12 : t1 ≤ t2) (h2b : t2 ≤ tb) (hb3 : tb ≤ t3) (hwin : t3 ≤ t1 + 1) :
    (RateLimiter.is_rate_limited (RateLimiter.init 2) "A" t1).1 = false ∧
    (RateLimiter.is_rate_limited
        (RateLimiter.is_rate_limited (RateLimiter.init 2) "A" t1).2 "A" t2).1 = false ∧
    (RateLimiter.is_rate_limited
        (RateLimiter.is_rate_limited
          (RateLimiter.is_rate_limited (RateLimiter.init 2) "A" t1).2 "A" t2).2 "B" tb).1
      = false ∧
    (RateLimiter.is_rate_limited
        (RateLimiter.is_rate_limited
          (RateLimiter.is_rate_limited
            (RateLimiter.is_rate_limited (RateLimiter.init 2) "A" t1).2 "A" t2).2 "B" tb).2
        "A" t3).1 = true := by
  have k1 : t2 - 60 < t1 := by omega
  have k2 : t3 - 60 < t1 := by omega
  have k3 : t3 - 60 < t2 := by omega
  simp [RateLimiter.is_rate_limited, RateLimiter.init, RateLimiter.prune, k1, k2, k3]

/-- Witness for C6 at concrete call times 0, 0, 1, 1. -/
theorem C6_witness :
    ((0 : Int) ≤ 0 ∧ (0 : Int) ≤ 1 ∧ (1 : Int) ≤ 1 ∧ (1 : Int) ≤ 0 + 1) ∧
      ((RateLimiter.is_rate_limited (RateLimiter.init 2) "A" 0).1 = false ∧
      (RateLimiter.is_rate_limited
          (RateLimiter.is_rate_limited (RateLimiter.init 2) "A" 0).2 "A" 0).1 = false ∧
      (RateLimiter.is_rate_limited
          (RateLimiter.is_rate_limited
            (RateLimiter.is_rate_limited (RateLimiter.init 2) "A" 0).2 "A" 0).2 "B" 1).1
        = false ∧
      (RateLimiter.is_rate_limited
          (RateLimiter.is_rate_limited
            (RateLimiter.is_rate_limited
              (RateLimiter.is_rate_limited (RateLimiter.init 2) "A" 0).2 "A" 0).2 "B" 1).2
          "A" 1).1 = true) :=
  ⟨by decide, C6_threshold_two 0 0 1 1 (by decide) (by decide) (by decide) (by decide)⟩

/-- Claim C7, amended: `get_remaining_requests` returns
`max(0, threshold - count)` where `count` is the number of stored timestamps in
the trailing 60 seconds, it never records a new timestamp and leaves every
other identifier untouched — but it is not non-mutating: it writes the pruned
list back into the queried identifier window. -/
theorem C7_get_remaining_requests (s : RateLimiter.State) (identifier : String) (now : Int) :
    (RateLimiter.get_remaining_requests s identifier now).1 =
      max 0 ((s.requests_per_minute : Int) -
        ((s.requests identifier).countP (fun t => t > now - 60) : Int)) ∧
    (∀ i, i ≠ identifier →
      (RateLimiter.get_remaining_requests s identifier now).2.requests i = s.requests i) ∧
    (RateLimiter.get_remaining_requests s identifier now).2.requests identifier =
      RateLimiter.prune now (s.requests identifier) ∧
    (RateLimiter.get_remaining_requests s identifier now).2.requests_per_minute =
      s.requests_per_minute := by
  refine ⟨?_, ?_, ?_, rfl⟩
  · simp [RateLimiter.get_remaining_requests, RateLimiter.prune,
      List.countP_eq_length_filter]
  · intro i hi
    simp [RateLimiter.get_remaining_requests, hi]
  · simp [RateLimiter.get_remaining_requests]

/-- Claim C7, counterexample to the claim as stated: on a limiter whose stored
window for `"A"` holds one stale timestamp (time 0, queried at time 100),
`get_remaining_requests` rewrites the stored window of `"A"` from `[0]` to
`[]` — the stored windows are not left exactly as they were, so the function
does mutate the limiter state. -/
theorem C7_counterexample :
    (RateLimiter.get_remaining_requests
        ⟨2, fun i => if i = "A" then [0] else []⟩ "A" 100).2.requests "A" = [] ∧
    (RateLimiter.State.requests ⟨2, fun i => if i = "A" then [0] else []⟩) "A" = [0] ∧
    ([] : List Int) ≠ [0] := by
  refine ⟨?_, by simp, by simp⟩
  simp [RateLimiter.get_remaining_requests, RateLimiter.prune]

/-! ## JWKS cache (`backend/app/core/auth.py`, `get_jwks`)

The module-level globals `_jwks_cache` / `_jwks_cache_time` are the explicit
state; the TTL `timedelta(hours=24)` is 86400 seconds; `datetime.utcnow()` is
the `now` argument; the outcome of `http_client.get(jwks_uri)` (including a
failing `response.json()`) is an explicit argument.  A key set is a list of
keys, so Python truthiness of `_jwks_cache` and of the parsed body is list
non-emptiness. -/

namespace JWKS

/-- The globals `_jwks_cache` and `_jwks_cache_time`. -/
structure CacheState where
  jwks_cache : Option (List String)
  jwks_cache_time : Option Int

/-- `_jwks_cache_ttl = timedelta(hours=24)`, in seconds. -/
def ttl : Int := 24 * 3600

/-- Outcome of the upstream JWKS request. -/
inductive FetchOutcome
  /-- The transport raised, or `response.json()` raised. -/
  | failure
  /-- A response whose body parsed to a key list (empty = falsy JSON). -/
  | response (status : Nat) (keys : List String)

/-- A raised `HTTPException`. -/
structure HttpError where
  status : Nat
  detail : String
deriving DecidableEq

/-- The guard `if _jwks_cache and _jwks_cache_time and utcnow() - _jwks_cache_time < _jwks_cache_ttl`. -/
def cacheUsable (s : CacheState) (now : Int) : Bool :=
  match s.jwks_cache, s.jwks_cache_time with
  | some c, some t => decide (c ≠ []) && decide (now - t < ttl)
  | _, _ => false

/-- `get_jwks`: serve the cached key set while it is fresh; otherwise fetch,
rejecting non-200 statuses and empty key sets.  Every failure raises
`HTTPException(500, "Failed to fetch JWKS")` (the inner 500s for a bad status
or an empty body are re-raised by the blanket `except` with that detail), and
no failure path assigns to the cache globals. -/
def get_jwks (s : CacheState) (now : Int) (fetch : FetchOutcome) :
    Except HttpError (List String) × CacheState :=
  if cacheUsable s now then
    (Except.ok (s.jwks_cache.getD []), s)
  else
    match fetch with
    | .failure => (.error ⟨500, "Failed to fetch JWKS"⟩, s)
    | .response status keys =>
        if status ≠ 200 then (.error ⟨500, "Failed to fetch JWKS"⟩, s)
        else if keys = [] then (.error ⟨500, "Failed to fetch JWKS"⟩, s)
        else (.ok keys, { jwks_cache := some keys, jwks_cache_time := some now })

end JWKS

/-! ## Claim C5 -/

/-- Claim C5: whenever the cache cannot serve (absent, or its entry is at
least 24 hours old — `cacheUsable` is false) and the upstream fetch fails or
returns an empty key set, `get_jwks` raises the `KeySourceError`-class failure
(`HTTPException` with status 500) and the cached key set and its fetch
timestamp are left exactly unchanged. -/
theorem C5_stale_cache_preserved (s : JWKS.CacheState) (now : Int)
    (fetch : JWKS.FetchOutcome)
    (hstale : JWKS.cacheUsable s now = false)
    (hfail : fetch = .failure ∨
      ∃ status keys, fetch = .response status keys ∧ (status ≠ 200 ∨ keys = [])) :
    (JWKS.get_jwks s now fetch).1 = .error ⟨500, "Failed to fetch JWKS"⟩ ∧
    (JWKS.get_jwks s now fetch).2 = s := by
  rcases hfail with h | ⟨status, keys, h, hbad⟩
  · subst h
    simp [JWKS.get_jwks, hstale]
  · subst h
    rcases hbad with hbad | hbad
    · simp [JWKS.get_jwks, hstale, hbad]
    · subst hbad
      by_cases hs : status = 200 <;> simp [JWKS.get_jwks, hstale, hs]

/-- Witness for C5: an empty (cold) cache, a failing fetch. -/
theorem C5_witness :
    (JWKS.cacheUsable ⟨none, none⟩ 0 = false ∧
      (JWKS.FetchOutcome.failure = JWKS.FetchOutcome.failure ∨
        ∃ status keys, JWKS.FetchOutcome.failure = JWKS.FetchOutcome.response status keys ∧
          (status ≠ 200 ∨ keys = []))) ∧
    (JWKS.get_jwks ⟨none, none⟩ 0 .failure).1 = .error ⟨500, "Failed to fetch JWKS"⟩ ∧
    (JWKS.get_jwks ⟨none, none⟩ 0 .failure).2 = ⟨none, none⟩ :=
  ⟨⟨rfl, Or.inl rfl⟩, C5_stale_cache_preserved ⟨none, none⟩ 0 .failure rfl (Or.inl rfl)⟩

/-! ## Token service (`auth-backend/logto_auth/services/token_service.py`)

Each operation body runs inside `try: ... except httpx.HTTPError ...
except Exception ...`; the possible Python exceptions are an explicit
inductive, and the outcome of the single HTTP call each operation makes is an
explicit argument. -/

namespace TokenService

/-- The Python exceptions that can arise inside the `try` bodies. -/
inductive PyError
  /-- `httpx.HTTPError` raised by the transport. -/
  | httpError (msg : String)
  /-- `logto_auth.exceptions.TokenError`. -/
  | tokenError (msg : String)
  /-- pydantic validation failure while constructing a response model. -/
  | validationError (msg : String)
  /-- `response.json()` failed to parse. -/
  | jsonError (msg : String)
deriving DecidableEq

/-- `str(e)` for an exception. -/
def PyError.msg : PyError → String
  | .httpError m => m
  | .tokenError m => m
  | .validationError m => m
  | .jsonError m => m

/-- Outcome of one HTTP call: either the transport raised, or a response
arrived with a status, a text body, and (when `response.json()` succeeds)
a parsed body of type `β`. -/
inductive HttpOutcome (β : Type)
  | transportFailure (msg : String)
  | response (status : Nat) (text : String) (body : Option β)

/-- The JSON dictionary of a token-endpoint response.  `refresh_token` is
doubly optional because `tokens.get("refresh_token", default)` distinguishes
an absent key (outer `none`, the default is returned) from an explicit JSON
`null` (inner `none`). -/
structure TokenJson where
  access_token : Option String
  token_type : Option String
  expires_in : Option Int
  refresh_token : Option (Option String)

/-- The `TokenResponse` pydantic model. -/
structure TokenResponse where
  access_token : String
  token_type : String
  expires_in : Int
  refresh_token : Option String
deriving DecidableEq

/-- The shared `try`-body of `exchange_code_for_tokens` and `refresh_token`:
POST to the token endpoint, reject non-200 with `TokenError`, parse the JSON,
and build a `TokenResponse` with the defaults
`token_type="bearer"`, `expires_in=3600`, and — for the refresh exchange —
`tokens.get("refresh_token", refresh_token)` falling back to the token the
caller supplied (`original = some rt`); the code exchange uses
`tokens.get("refresh_token")` (`original = none`).  pydantic rejects a
missing `access_token`. -/
def parseTokenResponse (original : Option String) (failText : String)
    (outcome : HttpOutcome TokenJson) : Except PyError TokenResponse :=
  match outcome with
  | .transportFailure m => .error (.httpError m)
  | .response status text body =>
      if status ≠ 200 then .error (.tokenError (failText ++ text))
      else
        match body with
        | none => .error (.jsonError "Expecting value")
        | some tokens =>
            match tokens.access_token with
            | none => .error (.validationError "access_token: none is not an allowed value")
            | some at_ =>
                .ok { access_token := at_,
                      token_type := tokens.token_type.getD "bearer",
                      expires_in := tokens.expires_in.getD 3600,
                      refresh_token :=
                        match tokens.refresh_token with
                        | none => original
                        | some v => v }

/-- The two `except` clauses: `httpx.HTTPError` becomes a `TokenError` with
the HTTP message; every other exception — including a `TokenError` raised in
the body — is re-raised as a fresh `TokenError` with the generic message. -/
def wrapTokenErrors (httpText otherText : String) :
    Except PyError TokenResponse → Except PyError TokenResponse
  | .ok r => .ok r
  | .error (.httpError m) => .error (.tokenError (httpText ++ m))
  | .error e => .error (.tokenError (otherText ++ e.msg))

/-- `TokenService.exchange_code_for_tokens`. -/
def exchange_code_for_tokens (code code_verifier redirect_uri : String)
    (outcome : HttpOutcome TokenJson) : Except PyError TokenResponse :=
  wrapTokenErrors "HTTP error during token exchange: " "Error exchanging code for tokens: "
    (parseTokenResponse none "Failed to exchange code for tokens: " outcome)

/-- `TokenService.refresh_token`. -/
def refresh_token (rt : String) (outcome : HttpOutcome TokenJson) :
    Except PyError TokenResponse :=
  wrapTokenErrors "HTTP error during token refresh: " "Error refreshing token: "
    (parseTokenResponse (some rt) "Failed to refresh token: " outcome)

/-- The JSON body of a user-info response from `{endpoint}/oidc/me`. -/
structure UserInfoJson where
  sub : Option String
  name : Option String
  email : Option String
  picture : Option String
  roles : Option (List String)
  username : Option String
  email_verified : Option Bool
  created_at : Option Int
  updated_at : Option Int

/-- The payload dictionary `get_user_info_from_token` builds (it never
contains an `exp` key). -/
structure UserInfoPayload where
  sub : Option String
  name : Option String
  email : Option String
  picture : Option String
  roles : List String
  username : Option String
  email_verified : Option Bool
  created_at : Option Int
  updated_at : Option Int

/-- Python truthiness of `payload.get("sub")`: false for an absent key, a
JSON `null`, and the empty string. -/
def subTruthy : Option String → Bool
  | none => false
  | some s => s ≠ ""

/-- The `try`-body of `TokenService.get_user_info_from_token`: one GET against
the user-info endpoint, `TokenError` on non-200, build the canonical payload,
`TokenError` if `sub` is missing or empty. -/
def userInfoBody (outcome : HttpOutcome UserInfoJson) : Except PyError UserInfoPayload :=
  match outcome with
  | .transportFailure m => .error (.httpError m)
  | .response status text body =>
      if status ≠ 200 then .error (.tokenError ("Failed to get user info: " ++ text))
      else
        match body with
        | none => .error (.jsonError "Expecting value")
        | some j =>
            let payload : UserInfoPayload :=
              { sub := j.sub, name := j.name, email := j.email, picture := j.picture,
                roles := j.roles.getD [], username := j.username,
                email_verified := j.email_verified, created_at := j.created_at,
                updated_at := j.updated_at }
            if subTruthy payload.sub then .ok payload
            else .error (.tokenError "Missing subject in user info")

/-- The `except` clauses of `get_user_info_from_token`. -/
def wrapUserInfoErrors : Except PyError UserInfoPayload → Except PyError UserInfoPayload
  | .ok r => .ok r
  | .error (.httpError m) => .error (.tokenError ("HTTP error during user info request: " ++ m))
  | .error e => .error (.tokenError ("Error getting user info: " ++ e.msg))

/-- `TokenService.get_user_info_from_token`, paired with the number of GET
requests it issues against the user-info endpoint (always exactly one). -/
def get_user_info_from_token (outcome : HttpOutcome UserInfoJson) :
    Except PyError UserInfoPayload × Nat :=
  (wrapUserInfoErrors (userInfoBody outcome), 1)

end TokenService

/-! ## Token validator (`alphab-logto/alphab_logto/dependencies.py`, `get_current_user`)

The JWT-path helper `TokenService.validate_jwt` lives in
`alphab_logto/services/token_service.py`, which is not part of the sources
here; it is passed in as an oracle (see `C1` notes): per the spec it verifies
the token locally against the JWKS cache and issues no user-info request. -/

namespace Dependencies

/-- Helper for `splitWords`: word accumulator over the character list. -/
def splitWordsGo : List Char → List Char → List String
  | [], acc => if acc = [] then [] else [⟨acc.reverse⟩]
  | c :: cs, acc =>
      if c = ' ' then
        (if acc = [] then splitWordsGo cs [] else ⟨acc.reverse⟩ :: splitWordsGo cs [])
      else splitWordsGo cs (c :: acc)

/-- Python `str.split()` on a header value: split on runs of whitespace,
producing no empty words (the code then requires exactly two words,
`scheme` and `token`). -/
def splitWords (s : String) : List String := splitWordsGo s.data []

/-- Helper for `dotSegments`: segment accumulator over the character list. -/
def dotSegmentsGo : List Char → List Char → List String
  | [], acc => [⟨acc.reverse⟩]
  | c :: cs, acc =>
      if c = '.' then (⟨acc.reverse⟩ : String) :: dotSegmentsGo cs []
      else dotSegmentsGo cs (c :: acc)

/-- Python `token.split(".")`: dot-separated segments, empties kept. -/
def dotSegments (s : String) : List String := dotSegmentsGo s.data []

/-- Python `str.lower()` for one ASCII character. -/
def lowerChar (c : Char) : Char :=
  if 'A' ≤ c ∧ c ≤ 'Z' then Char.ofNat (c.toNat + 32) else c

/-- Python `scheme.lower()`. -/
def lowerString (s : String) : String := ⟨s.data.map lowerChar⟩

/-- A decoded JWT payload, as returned by the spec-modelled `validate_jwt`. -/
structure JwtPayload where
  sub : Option String
  roles : Option (List String)
  exp : Option Int

/-- The `TokenData` pydantic model. -/
structure TokenData where
  sub : String
  roles : List String
  exp : Option Int
deriving DecidableEq

/-- A raised `AuthError` (an `HTTPException` subclass). -/
structure AuthErr where
  detail : String
  status_code : Nat
deriving DecidableEq

/-- `get_current_user`: reject CORS preflight and missing/malformed
`Authorization` headers; for a token of exactly three dot-separated segments
run the local JWT path (`validate_jwt`, no user-info request); otherwise run
the remote path, a single call to `get_user_info_from_token`.  The second
component counts the user-info requests issued. -/
def get_current_user (method : String) (authorization : Option String)
    (validate_jwt : String → Except TokenService.PyError JwtPayload)
    (userinfoOutcome : TokenService.HttpOutcome TokenService.UserInfoJson) :
    Except AuthErr TokenData × Nat :=
  if method = "OPTIONS" then (.error ⟨"Not authenticated", 401⟩, 0)
  else
    match authorization with
    | none => (.error ⟨"Not authenticated", 401⟩, 0)
    | some auth =>
        match splitWords auth with
        | [scheme, token] =>
            if lowerString scheme ≠ "bearer" then
              (.error ⟨"Invalid authorization scheme", 401⟩, 0)
            else if (dotSegments token).length = 3 then
              match validate_jwt token with
              | .error (.tokenError m) => (.error ⟨"Invalid JWT: " ++ m, 401⟩, 0)
              | .error e => (.error ⟨"JWT processing error: " ++ e.msg, 401⟩, 0)
              | .ok payload =>
                  if TokenService.subTruthy payload.sub then
                    (.ok { sub := payload.sub.getD "", roles := payload.roles.getD [],
                           exp := payload.exp }, 0)
                  else
                    (.error ⟨"JWT processing error: Invalid JWT: missing sub claim", 401⟩, 0)
            else
              match TokenService.get_user_info_from_token userinfoOutcome with
              | (.error e, n) =>
                  (.error ⟨"Opaque token validation failed: " ++ e.msg, 401⟩, n)
              | (.ok ui, n) =>
                  if TokenService.subTruthy ui.sub then
                    (.ok { sub := ui.sub.getD "", roles := ui.roles, exp := none }, n)
                  else
                    (.error ⟨"Opaque token validation failed: missing subject", 401⟩, n)
        | _ => (.error ⟨"Invalid authorization header format", 401⟩, 0)

end Dependencies

/-! ## Auth orchestrator (`services/auth_service.py`, both packages)

`handle_callback`, `get_user_info` and `refresh_access_token` are embedded
below.  `handle_callback` is textually identical in the two packages on every
path the claims touch; `get_user_info` differs between the packages and both
variants are embedded. -/

namespace AuthService

/-- Python truthiness of an optional string (`if not code`, `if error`,
`if not code_verifier`): false for `None` and for the empty string. -/
def truthy : Option String → Bool
  | none => false
  | some s => s ≠ ""

/-- A response from `handle_callback`: either a `RedirectResponse` or a
raised `HTTPException`. -/
inductive CallbackResponse
  | redirect (url : String)
  | httpError (status : Nat) (detail : String)
deriving DecidableEq

/-- `AuthService.handle_callback`, paired with the number of token-exchange
requests issued.  The missing-verifier `HTTPException(400)` is raised inside
the `try` block, so the blanket `except Exception` catches it and re-raises
`HTTPException(500, "Authentication error: " + str(e))`. -/
def handle_callback (cors_origins : List String) (redirect_uri : String)
    (code error error_description : Option String)
    (verifierCookie : Option String)
    (exchangeOutcome : TokenService.HttpOutcome TokenService.TokenJson) :
    CallbackResponse × Nat :=
  let frontend := cors_origins.headD "/"
  if truthy error then
    (.redirect (frontend ++ "?error=" ++ error.getD ""), 0)
  else if ¬ truthy code then
    (.httpError 400 "No authorization code provided", 0)
  else if ¬ truthy verifierCookie then
    (.httpError 500
      "Authentication error: No code verifier found. Please try signing in again.", 0)
  else
    match TokenService.exchange_code_for_tokens (code.getD "") (verifierCookie.getD "")
        redirect_uri exchangeOutcome with
    | .error e => (.httpError 500 ("Authentication error: " ++ e.msg), 1)
    | .ok tokens =>
        let url := frontend ++ "/auth/callback?token=" ++ tokens.access_token
        let url :=
          match tokens.refresh_token with
          | some r => if r = "" then url else url ++ "&refresh_token=" ++ r
          | none => url
        (.redirect url, 1)

/-- The `UserInfo` pydantic model. -/
structure UserInfo where
  sub : String
  name : Option String
  email : Option String
  picture : Option String
  roles : List String
  username : Option String
  email_verified : Option Bool
  created_at : Option Int
  updated_at : Option Int
  custom_claims : Option String
deriving DecidableEq

/-- The degraded `UserInfo` the auth-backend `get_user_info` falls back to:
just `sub` and `roles` from the already-validated token data. -/
def fallbackUserInfo (td : Dependencies.TokenData) : UserInfo :=
  { sub := td.sub, roles := td.roles, name := none, email := none, picture := none,
    username := none, email_verified := none, created_at := none, updated_at := none,
    custom_claims := none }

/-- `AuthService.get_user_info` of the auth-backend package: the whole body is
inside one `try`, and every failure — missing or malformed header, wrong
scheme, a failing user-info re-fetch, or a payload whose `sub` is a JSON
`null` (which pydantic rejects) — degrades to `fallbackUserInfo` instead of
raising.  On success, `roles` still comes from `token_data`. -/
def get_user_info_backend (authorization : Option String)
    (token_data : Dependencies.TokenData)
    (outcome : TokenService.HttpOutcome TokenService.UserInfoJson) : UserInfo :=
  match authorization with
  | none => fallbackUserInfo token_data
  | some auth =>
      match Dependencies.splitWords auth with
      | [scheme, _token] =>
          if Dependencies.lowerString scheme ≠ "bearer" then fallbackUserInfo token_data
          else
            match (TokenService.get_user_info_from_token outcome).1 with
            | .error _ => fallbackUserInfo token_data
            | .ok p =>
                match p.sub with
                | none => fallbackUserInfo token_data
                | some s =>
                    { sub := s, name := p.name, email := p.email, picture := p.picture,
                      roles := token_data.roles, username := p.username,
                      email_verified := p.email_verified, created_at := p.created_at,
                      updated_at := p.updated_at, custom_claims := none }
      | _ => fallbackUserInfo token_data

/-- A raised `HTTPException` from the alphab-logto `get_user_info`. -/
structure HttpExc where
  status : Nat
  detail : String
deriving DecidableEq

/-- `AuthService.get_user_info` of the alphab-logto package: missing or
malformed headers raise 401 before the `try`; a `TokenError` from the
re-fetch raises 401; any other exception raises 500.  There is no fallback
path. -/
def get_user_info_logto (authorization : Option String)
    (token_data : Dependencies.TokenData)
    (outcome : TokenService.HttpOutcome TokenService.UserInfoJson) :
    Except HttpExc UserInfo :=
  match authorization with
  | none => .error ⟨401, "Authorization header missing"⟩
  | some auth =>
      match Dependencies.splitWords auth with
      | [scheme, _token] =>
          if Dependencies.lowerString scheme ≠ "bearer" then
            .error ⟨401, "Invalid authorization scheme"⟩
          else
            match (TokenService.get_user_info_from_token outcome).1 with
            | .error (.tokenError m) => .error ⟨401, "Invalid token: " ++ m⟩
            | .error _ => .error ⟨500, "Error fetching user information"⟩
            | .ok p =>
                match p.sub with
                | none => .error ⟨500, "Error fetching user information"⟩
                | some s =>
                    .ok { sub := s, name := p.name, email := p.email, picture := p.picture,
                          roles := p.roles, username := p.username,
                          email_verified := p.email_verified, created_at := p.created_at,
                          updated_at := p.updated_at, custom_claims := none }
      | _ => .error ⟨401, "Invalid authorization header format"⟩

/-- The dictionary returned by `AuthService.refresh_access_token`. -/
structure RefreshResult where
  access_token : String
  refresh_token : String
  token_type : String
  expires_in : Int
deriving DecidableEq

/-- `AuthService.refresh_access_token`: delegate to the token service and
substitute the caller-supplied token for a falsy (`None` or empty)
`tokens.refresh_token` (`tokens.refresh_token or refresh_token`). -/
def refresh_access_token (rt : String)
    (outcome : TokenService.HttpOutcome TokenService.TokenJson) :
    Except TokenService.PyError RefreshResult :=
  match TokenService.refresh_token rt outcome with
  | .error e => .error e
  | .ok tokens =>
      .ok { access_token := tokens.access_token,
            refresh_token :=
              match tokens.refresh_token with
              | some r => if r = "" then rt else r
              | none => rt,
            token_type := tokens.token_type,
            expires_in := tokens.expires_in }

end AuthService

/-! ## Claims C1, C2, C4, C8, C10 -/

/-- Classifier for Claim C10: a token-service result either succeeded or
raised precisely a `TokenError`. -/
def onlyTokenError {α : Type} : Except TokenService.PyError α → Bool
  | .ok _ => true
  | .error (.tokenError _) => true
  | .error _ => false

/-- Both `except` clauses of the token-endpoint operations re-raise as
`TokenError`, so the wrapped result is a success or a `TokenError`. -/
theorem onlyTokenError_wrapTokenErrors (h o : String)
    (r : Except TokenService.PyError TokenService.TokenResponse) :
    onlyTokenError (TokenService.wrapTokenErrors h o r) = true := by
  cases r with
  | error e => cases e <;> rfl
  | ok x => rfl

/-- Both `except` clauses of `get_user_info_from_token` re-raise as
`TokenError`. -/
theorem onlyTokenError_wrapUserInfoErrors
    (r : Except TokenService.PyError TokenService.UserInfoPayload) :
    onlyTokenError (TokenService.wrapUserInfoErrors r) = true := by
  cases r with
  | error e => cases e <;> rfl
  | ok x => rfl

/-- Claim C10: every failure of `exchange_code_for_tokens`, `refresh_token`
and `get_user_info_from_token` — transport error, non-200 response, malformed
body, missing `access_token`, missing `sub` — surfaces as the single
exception type `TokenError`; no other exception escapes. -/
theorem C10_failures_are_token_errors (code code_verifier redirect_uri rt : String)
    (o1 o2 : TokenService.HttpOutcome TokenService.TokenJson)
    (o3 : TokenService.HttpOutcome TokenService.UserInfoJson) :
    onlyTokenError
        (TokenService.exchange_code_for_tokens code code_verifier redirect_uri o1) = true ∧
    onlyTokenError (TokenService.refresh_token rt o2) = true ∧
    onlyTokenError (TokenService.get_user_info_from_token o3).1 = true :=
  ⟨onlyTokenError_wrapTokenErrors _ _ _, onlyTokenError_wrapTokenErrors _ _ _,
    onlyTokenError_wrapUserInfoErrors _⟩

/-- Claim C2, the code evaluated at the failing input: a request carrying a
valid authorization code but no `code_verifier` cookie.  No token-exchange
request is issued (second component 0) — but the handler fails with HTTP 500,
not a 400-class error: the `HTTPException(400)` the code raises for this case
sits inside the `try` block and the blanket `except Exception` re-raises it
as a 500. -/
theorem C2_missing_verifier_yields_500 (origins : List String) (ru : String)
    (outcome : TokenService.HttpOutcome TokenService.TokenJson) :
    AuthService.handle_callback origins ru (some "valid-code") none none none outcome =
      (.httpError 500
        "Authentication error: No code verifier found. Please try signing in again.", 0) := by
  simp [AuthService.handle_callback, AuthService.truthy]

/-- Claim C8: when the 200 refresh response omits the `refresh_token` key,
both the token-service result and the orchestrator result carry the original
refresh token the caller supplied. -/
theorem C8_refresh_reuses_original (rt text : String) (j : TokenService.TokenJson)
    (a : String) (hak : j.access_token = some a) (habs : j.refresh_token = none) :
    TokenService.refresh_token rt (.response 200 text (some j)) =
      .ok { access_token := a, token_type := j.token_type.getD "bearer",
            expires_in := j.expires_in.getD 3600, refresh_token := some rt } ∧
    AuthService.refresh_access_token rt (.response 200 text (some j)) =
      .ok { access_token := a, refresh_token := rt,
            token_type := j.token_type.getD "bearer",
            expires_in := j.expires_in.getD 3600 } := by
  have h1 : TokenService.refresh_token rt (.response 200 text (some j)) =
      .ok { access_token := a, token_type := j.token_type.getD "bearer",
            expires_in := j.expires_in.getD 3600, refresh_token := some rt } := by
    simp [TokenService.refresh_token, TokenService.parseTokenResponse,
      TokenService.wrapTokenErrors, hak, habs]
  refine ⟨h1, ?_⟩
  simp [AuthService.refresh_access_token, h1, ite_self]

/-- Witness for C8: a concrete 200 response with an access token and no
`refresh_token` key. -/
theorem C8_witness :
    ((⟨some "acc", none, none, none⟩ : TokenService.TokenJson).access_token = some "acc" ∧
      (⟨some "acc", none, none, none⟩ : TokenService.TokenJson).refresh_token = none) ∧
    (TokenService.refresh_token "old-token"
        (.response 200 "" (some ⟨some "acc", none, none, none⟩)) =
      .ok { access_token := "acc", token_type := "bearer", expires_in := 3600,
            refresh_token := some "old-token" } ∧
    AuthService.refresh_access_token "old-token"
        (.response 200 "" (some ⟨some "acc", none, none, none⟩)) =
      .ok { access_token := "acc", refresh_token := "old-token", token_type := "bearer",
            expires_in := 3600 }) :=
  ⟨⟨rfl, rfl⟩, C8_refresh_reuses_original "old-token" "" ⟨some "acc", none, none, none⟩
    "acc" rfl rfl⟩

/-- Claim C4, counterexample to the claim as stated: in the alphab-logto
`get_user_info`, a failing user-info re-fetch (here a transport timeout, with
an already-validated `token_data`) raises HTTP 401 instead of returning the
degraded `UserInfo` built from `token_data`. -/
theorem C4_counterexample :
    AuthService.get_user_info_logto (some "Bearer abc")
        ⟨"user-1", ["admin"], none⟩ (.transportFailure "timeout") =
      .error ⟨401, "Invalid token: HTTP error during user info request: timeout"⟩ := by
  rfl

/-- Claim C4, amended to the auth-backend variant: whenever the user-info
re-fetch fails, `get_user_info` of the auth-backend package returns the
fallback `UserInfo` carrying exactly `sub` and `roles` from the
already-validated `token_data`, instead of raising. -/
theorem C4_backend_fallback (authorization : Option String)
    (td : Dependencies.TokenData)
    (outcome : TokenService.HttpOutcome TokenService.UserInfoJson)
    (hfail : ∃ e, (TokenService.get_user_info_from_token outcome).1 = .error e) :
    AuthService.get_user_info_backend authorization td outcome =
      AuthService.fallbackUserInfo td := by
  obtain ⟨e, he⟩ := hfail
  rcases authorization with _ | auth
  · rfl
  · simp only [AuthService.get_user_info_backend]
    rcases hsw : Dependencies.splitWords auth with _ | ⟨scheme, _ | ⟨token, _ | ⟨x, rest⟩⟩⟩
    · rfl
    · rfl
    · by_cases hb : Dependencies.lowerString scheme = "bearer" <;> simp [hb, he]
    · rfl

/-- Witness for C4 (amended): a bearer header and a timed-out re-fetch. -/
theorem C4_witness :
    (∃ e, (TokenService.get_user_info_from_token
        (TokenService.HttpOutcome.transportFailure "timeout")).1 = .error e) ∧
    AuthService.get_user_info_backend (some "Bearer abc") ⟨"user-1", ["admin"], none⟩
        (.transportFailure "timeout") =
      AuthService.fallbackUserInfo ⟨"user-1", ["admin"], none⟩ :=
  ⟨⟨.tokenError "HTTP error during user info request: timeout", rfl⟩,
    C4_backend_fallback (some "Bearer abc") ⟨"user-1", ["admin"], none⟩
      (.transportFailure "timeout")
      ⟨.tokenError "HTTP error during user info request: timeout", rfl⟩⟩

/-! ## Claim C1 -/

/-- Claim C1: for every bearer token presented to `get_current_user`, a token
of exactly three dot-separated segments is validated on the local JWT path
and the user-info endpoint is never called (0 requests); any other token is
validated via exactly one user-info request, and a user-info response whose
`sub` claim is absent or empty makes the validation fail with an error
instead of returning a `TokenData`. -/
theorem C1_dual_path_validation (method auth scheme token : String)
    (validate_jwt : String → Except TokenService.PyError Dependencies.JwtPayload)
    (outcome : TokenService.HttpOutcome TokenService.UserInfoJson)
    (hm : method ≠ "OPTIONS")
    (hsplit : Dependencies.splitWords auth = [scheme, token])
    (hscheme : Dependencies.lowerString scheme = "bearer") :
    ((Dependencies.dotSegments token).length = 3 →
      (Dependencies.get_current_user method (some auth) validate_jwt outcome).2 = 0) ∧
    ((Dependencies.dotSegments token).length ≠ 3 →
      (Dependencies.get_current_user method (some auth) validate_jwt outcome).2 = 1 ∧
      (∀ status text j, outcome = .response status text (some j) →
        (j.sub = none ∨ j.sub = some "") →
        ∃ e, (Dependencies.get_current_user method (some auth) validate_jwt outcome).1 =
          .error e)) := by
  simp only [Dependencies.get_current_user, if_neg hm, hsplit, hscheme, ne_eq,
    not_true_eq_false, if_false]
  constructor
  · intro h3
    rw [if_pos h3]
    split <;> first | rfl | (split <;> rfl)
  · intro hn3
    rw [if_neg hn3]
    constructor
    · rcases hw : TokenService.wrapUserInfoErrors (TokenService.userInfoBody outcome)
          with e | ui
      · simp only [TokenService.get_user_info_from_token, hw]
      · simp only [TokenService.get_user_info_from_token, hw]
        split <;> rfl
    · intro status text j ho hsub
      subst ho
      have hbody : ∃ m, TokenService.userInfoBody
          (.response status text (some j)) = .error (.tokenError m) := by
        by_cases hst : status = 200
        · rcases hsub with hs | hs <;>
            · refine ⟨"Missing subject in user info", ?_⟩
              simp [TokenService.userInfoBody, hst, TokenService.subTruthy, hs]
        · exact ⟨"Failed to get user info: " ++ text,
            by simp [TokenService.userInfoBody, hst]⟩
      obtain ⟨m, hbody⟩ := hbody
      refine ⟨⟨"Opaque token validation failed: " ++ ("Error getting user info: " ++ m), 401⟩, ?_⟩
      simp [TokenService.get_user_info_from_token, TokenService.wrapUserInfoErrors,
        hbody, TokenService.PyError.msg]

/-- Witness for C1: a one-segment token `abc`, a user-info response without a
`sub` claim. -/
theorem C1_witness :
    ("GET" ≠ "OPTIONS" ∧
      Dependencies.splitWords "Bearer abc" = ["Bearer", "abc"] ∧
      Dependencies.lowerString "Bearer" = "bearer") ∧
    (((Dependencies.dotSegments "abc").length = 3 →
        (Dependencies.get_current_user "GET" (some "Bearer abc")
          (fun _ => Except.error (.tokenError "unused"))
          (.response 200 ""
            (some ⟨none, none, none, none, none, none, none, none, none⟩))).2 = 0) ∧
      ((Dependencies.dotSegments "abc").length ≠ 3 →
        (Dependencies.get_current_user "GET" (some "Bearer abc")
          (fun _ => Except.error (.tokenError "unused"))
          (.response 200 ""
            (some ⟨none, none, none, none, none, none, none, none, none⟩))).2 = 1 ∧
        (∀ status text (j : TokenService.UserInfoJson),
          (TokenService.HttpOutcome.response 200 ""
              (some (⟨none, none, none, none, none, none, none, none,
                none⟩ : TokenService.UserInfoJson))
            : TokenService.HttpOutcome TokenService.UserInfoJson)
            = .response status text (some j) →
          (j.sub = none ∨ j.sub = some "") →
          ∃ e, (Dependencies.get_current_user "GET" (some "Bearer abc")
            (fun _ => Except.error (.tokenError "unused"))
            (.response 200 ""
              (some ⟨none, none, none, none, none, none, none, none, none⟩))).1 =
            .error e))) :=
  ⟨⟨by decide, by decide, by decide⟩,
    C1_dual_path_validation "GET" "Bearer abc" "Bearer" "abc"
      (fun _ => Except.error (.tokenError "unused"))
      (.response 200 "" (some ⟨none, none, none, none, none, none, none, none, none⟩))
      (by decide) (by decide) (by decide)⟩

/-- Witness for C7 (amended): a concrete limiter state with one stored
timestamp, queried at time 30. -/
theorem C7_witness :
    (RateLimiter.get_remaining_requests ⟨2, fun i => if i = "A" then [0] else []⟩ "A" 30).1 =
      max 0 ((((⟨2, fun i => if i = "A" then [0] else []⟩ :
          RateLimiter.State).requests_per_minute : Int)) -
        ((((⟨2, fun i => if i = "A" then [0] else []⟩ :
            RateLimiter.State).requests "A").countP (fun t => t > (30 : Int) - 60)) : Int)) ∧
    (∀ i, i ≠ "A" →
      (RateLimiter.get_remaining_requests
        ⟨2, fun i => if i = "A" then [0] else []⟩ "A" 30).2.requests i =
        (⟨2, fun i => if i = "A" then [0] else []⟩ : RateLimiter.State).requests i) ∧
    (RateLimiter.get_remaining_requests
        ⟨2, fun i => if i = "A" then [0] else []⟩ "A" 30).2.requests "A" =
      RateLimiter.prune 30
        ((⟨2, fun i => if i = "A" then [0] else []⟩ : RateLimiter.State).requests "A") ∧
    (RateLimiter.get_remaining_requests
        ⟨2, fun i => if i = "A" then [0] else []⟩ "A" 30).2.requests_per_minute =
      (⟨2, fun i => if i = "A" then [0] else []⟩ : RateLimiter.State).requests_per_minute :=
  C7_get_remaining_requests ⟨2, fun i => if i = "A" then [0] else []⟩ "A" 30

/-- Witness for C10: a non-200 response for both token exchanges and a
transport failure for the user-info call. -/
theorem C10_witness :
    onlyTokenError (TokenService.exchange_code_for_tokens "c" "v" "r"
      (.response 500 "boom" none)) = true ∧
    onlyTokenError (TokenService.refresh_token "rt" (.response 500 "boom" none)) = true ∧
    onlyTokenError (TokenService.get_user_info_from_token
      (TokenService.HttpOutcome.transportFailure "down")).1 = true :=
  C10_failures_are_token_errors "c" "v" "r" "rt" (.response 500 "boom" none)
    (.response 500 "boom" none) (.transportFailure "down")

end AuthCore
